import Mathlib

/-!
Shallow embedding of the CRM application in `app.py` (Flask + SQLite).

The three SQLite tables (clients, notes, appointments) are modelled as lists
of rows together with the AUTOINCREMENT counters (SQLite rowids start at 1).
Each request handler of `app.py` is modelled as a function taking the current
database, the form/query fields (each an `Option String`, `none` = field
absent from the request) and the current wall-clock time already rendered at
minute precision by `datetime.now().strftime("%Y-%m-%dT%H:%M")`, which is the
only way the code ever reads the clock.

Two points of fidelity that matter below:
* the `sqlite3.connect` call in `get_db` never issues `PRAGMA foreign_keys=ON`,
  so the `FOREIGN KEY ... ON DELETE CASCADE` clauses declared in `SCHEMA_SQL`
  are NOT enforced at runtime (SQLite defaults to foreign keys off); inserts
  referencing a missing client succeed;
* SQLite compares TEXT with the BINARY collation (bytewise on UTF-8), which on
  these timestamp strings coincides with the codepoint-lexicographic order
  `lexLe` defined here; `ORDER BY` is modelled with the stable
  `List.insertionSort`, so rows with equal sort keys keep table order, matching
  the observed SQLite behaviour (SQLite itself leaves tie order unspecified).
-/

namespace App

/-- Row of the `clients` table. `phone`/`email` are nullable columns. -/
structure Client where
  id : Nat
  name : String
  phone : Option String
  email : Option String
  created_at : String
  deriving DecidableEq, Repr

/-- Row of the `notes` table. -/
structure Note where
  id : Nat
  client_id : Nat
  content : String
  created_at : String
  deriving DecidableEq, Repr

/-- Row of the `appointments` table. `duration_min` is an SQLite INTEGER
(Python may bind a negative int, hence `Int`); `notes` is nullable. -/
structure Appointment where
  id : Nat
  client_id : Nat
  starts_at : String
  duration_min : Int
  status : String
  notes : Option String
  created_at : String
  deriving DecidableEq, Repr

/-- The SQLite database file: the three tables plus their AUTOINCREMENT
counters (next rowid to be assigned; SQLite rowids start at 1). -/
structure DB where
  clients : List Client
  notes : List Note
  appointments : List Appointment
  nextClientId : Nat
  nextNoteId : Nat
  nextApptId : Nat
  deriving DecidableEq, Repr

/-- Freshly created database (schema just initialised by `init_db`). -/
def emptyDB : DB := ⟨[], [], [], 1, 1, 1⟩

/-! ## Python string helpers -/

/-- Python `str.strip()`: drop leading and trailing whitespace. -/
def pyStrip (s : String) : String :=
  ⟨((s.data.dropWhile Char.isWhitespace).reverse.dropWhile Char.isWhitespace).reverse⟩

/-- Python `request.form.get(key, "")`: an absent field becomes `""`. -/
def formGetD (v : Option String) : String := v.getD ""

/-- Python `s or None` on an (already stripped) string: `""` is falsy. -/
def orNone (s : String) : Option String := if s = "" then none else some s

/-- Python `request.form.get(key) or default`: absent and `""` both give the
default. -/
def orDefault (v : Option String) (d : String) : String :=
  match v with
  | none => d
  | some s => if s = "" then d else s

/-- Python `request.form.get(key) or None`: absent and `""` both give `None`. -/
def formOrNone (v : Option String) : Option String :=
  match v with
  | none => none
  | some s => if s = "" then none else some s

/-- Decimal value of a digit list (digits already validated). -/
def digitsVal (ds : List Char) : Nat := ds.foldl (fun acc c => acc * 10 + (c.toNat - 48)) 0

/-- Python `int(s)` on a string: optional surrounding whitespace, an optional
sign, then decimal digits; any other shape raises `ValueError`, modelled as
`none`. (Exotic accepted forms such as digit-group underscores or non-ASCII
digits are not modelled; all inputs of interest are ASCII.) -/
def pyInt (s : String) : Option Int :=
  match (pyStrip s).data with
  | [] => none
  | c :: ds =>
    if c = '-' then
      if ds ≠ [] ∧ ds.all Char.isDigit then some (-(digitsVal ds : Int)) else none
    else if c = '+' then
      if ds ≠ [] ∧ ds.all Char.isDigit then some ((digitsVal ds : Int)) else none
    else
      if (c :: ds).all Char.isDigit then some ((digitsVal (c :: ds) : Int)) else none

/-- `int(request.form.get("duration_min") or 60)`: an absent or empty field
gives `60`; otherwise Python `int` parsing, where `none` models the uncaught
`ValueError` that aborts the request. -/
def durationField (v : Option String) : Option Int :=
  match v with
  | none => some 60
  | some s => if s = "" then some 60 else pyInt s

/-! ## SQLite TEXT comparison and ordering -/

/-- Codepoint-lexicographic order on character lists. On UTF-8 encoded text
this coincides with bytewise comparison, i.e. with the SQLite BINARY collation
used for all TEXT comparisons in the queries of `app.py`. -/
def lexLe : List Char → List Char → Bool
  | [], _ => true
  | _ :: _, [] => false
  | a :: as, b :: bs =>
    if a.toNat < b.toNat then true
    else if a.toNat = b.toNat then lexLe as bs
    else false

/-- SQLite TEXT `<=` (BINARY collation). -/
def strLe (a b : String) : Bool := lexLe a.data b.data

theorem lexLe_total (a b : List Char) : lexLe a b = true ∨ lexLe b a = true := by
  induction a generalizing b with
  | nil => left; rfl
  | cons x xs ih =>
    cases b with
    | nil => right; rfl
    | cons y ys =>
      rcases Nat.lt_trichotomy x.toNat y.toNat with h | h | h
      · left; simp [lexLe, h]
      · rcases ih ys with h2 | h2
        · left; simp [lexLe, h, h2]
        · right; simp [lexLe, h.symm, h2]
      · right; simp [lexLe, h]

theorem lexLe_trans {a b c : List Char} (h1 : lexLe a b = true) (h2 : lexLe b c = true) :
    lexLe a c = true := by
  induction a generalizing b c with
  | nil => rfl
  | cons x xs ih =>
    cases b with
    | nil => simp [lexLe] at h1
    | cons y ys =>
      cases c with
      | nil => simp [lexLe] at h2
      | cons z zs =>
        simp only [lexLe] at h1 h2 ⊢
        split at h1
        · rename_i hxy
          split at h2
          · rename_i hyz
            simp [Nat.lt_trans hxy hyz]
          · split at h2
            · rename_i hyz
              simp [hyz ▸ hxy]
            · exact absurd h2 (by simp)
        · split at h1
          · rename_i hxy
            split at h2
            · rename_i hyz
              simp [hxy ▸ hyz]
            · split at h2
              · rename_i hyz
                rw [hxy, hyz]
                simp only [Nat.lt_irrefl, if_false, if_pos rfl]
                exact ih h1 h2
              · exact absurd h2 (by simp)
          · exact absurd h1 (by simp)

theorem strLe_total (a b : String) : strLe a b = true ∨ strLe b a = true :=
  lexLe_total a.data b.data

theorem strLe_trans {a b c : String} (h1 : strLe a b = true) (h2 : strLe b c = true) :
    strLe a c = true :=
  lexLe_trans h1 h2

/-! ## SQL query building blocks -/

/-- `SELECT * FROM clients WHERE id=?` followed by `fetchone()`. -/
def fetchClient (db : DB) (cid : Nat) : Option Client :=
  (db.clients.filter (fun c => c.id == cid)).head?

/-- `FROM appointments a JOIN clients c ON c.id = a.client_id`: one row per
matching (appointment, client) pair, in table order. -/
def sqlJoin (db : DB) : List (Appointment × Client) :=
  db.appointments.flatMap fun a =>
    (db.clients.filter (fun c => c.id == a.client_id)).map (fun c => (a, c))

/-- The joined fetch of `edit_appointment`:
`SELECT a.*, c.name FROM appointments a JOIN clients c ON c.id=a.client_id
WHERE a.id=?` followed by `fetchone()`. -/
def joinedFetch (db : DB) (aid : Nat) : Option (Appointment × Client) :=
  ((sqlJoin db).filter (fun p => p.1.id == aid)).head?

/-- `ORDER BY created_at DESC` sort relation on notes. -/
def noteDesc (x y : Note) : Prop := strLe y.created_at x.created_at = true

instance : DecidableRel noteDesc := fun _ _ => Bool.decEq _ _

instance : IsTotal Note noteDesc :=
  ⟨fun a b => by unfold noteDesc; exact strLe_total b.created_at a.created_at⟩

instance : IsTrans Note noteDesc :=
  ⟨fun _ _ _ h1 h2 => by unfold noteDesc at *; exact strLe_trans h2 h1⟩

/-- `ORDER BY a.starts_at ASC` sort relation on joined rows. -/
def apptAscStarts (x y : Appointment × Client) : Prop :=
  strLe x.1.starts_at y.1.starts_at = true

instance : DecidableRel apptAscStarts := fun _ _ => Bool.decEq _ _

instance : IsTotal (Appointment × Client) apptAscStarts :=
  ⟨fun a b => by unfold apptAscStarts; exact strLe_total a.1.starts_at b.1.starts_at⟩

instance : IsTrans (Appointment × Client) apptAscStarts :=
  ⟨fun _ _ _ h1 h2 => by unfold apptAscStarts at *; exact strLe_trans h1 h2⟩

/-! ## Request handlers -/

/-- POST `/clientes/novo` (`new_client` in app.py). Returns the new database
and `some` new client id on success (redirect + success flash), or `none` when
the stripped name is empty (re-render with the flash "Nome é obrigatório.",
i.e. the ValidationError of the spec) — in that case nothing is inserted. -/
def new_client (db : DB) (nameF phoneF emailF : Option String) (now : String) :
    DB × Option Nat :=
  let name := pyStrip (formGetD nameF)
  let phone := pyStrip (formGetD phoneF)
  let email := pyStrip (formGetD emailF)
  if name = "" then (db, none)
  else
    ({ db with
        clients := db.clients ++
          [⟨db.nextClientId, name, orNone phone, orNone email, now⟩],
        nextClientId := db.nextClientId + 1 },
     some db.nextClientId)

/-- POST `/clientes/<client_id>` (the note-adding branch of `client_detail`).
Returns the new database and the flash message, if any. The code inserts
whenever the stripped content is non-empty, WITHOUT checking that `client_id`
exists (and foreign keys are off, see the header comment); with empty content
it silently redirects: no insert and no flash at all. -/
def client_detail_post (db : DB) (client_id : Nat) (contentF : Option String)
    (now : String) : DB × Option String :=
  let content := pyStrip (formGetD contentF)
  if content = "" then (db, none)
  else
    ({ db with
        notes := db.notes ++ [⟨db.nextNoteId, client_id, content, now⟩],
        nextNoteId := db.nextNoteId + 1 },
     some "Observação adicionada!")

/-- `SELECT * FROM notes WHERE client_id=? ORDER BY created_at DESC` in the
GET branch of `client_detail`. -/
def client_notes (db : DB) (cid : Nat) : List Note :=
  List.insertionSort noteDesc (db.notes.filter (fun n => n.client_id == cid))

/-- Outcome of POST `/agenda/nova` (`new_appointment` in app.py). -/
inductive CreateApptResult where
  /-- flash "Cliente e data/hora são obrigatórios.", form re-rendered. -/
  | validationError : CreateApptResult
  /-- uncaught `ValueError` from `int(...)`: the request aborts, no insert. -/
  | valueError : CreateApptResult
  /-- flash "Consulta criada!", redirect; carries the new db and new id. -/
  | created : DB → Nat → CreateApptResult
  deriving DecidableEq, Repr

/-- POST `/agenda/nova` (`new_appointment` in app.py). `client_idF` is `none`
when the form field is absent or empty (the `not client_id` falsy test);
note that `int(request.form.get("duration_min") or 60)` runs BEFORE the
required-field check, so a malformed duration raises even when validation
would fail. The insert does not check that the client exists. -/
def new_appointment_post (db : DB) (client_idF : Option Nat)
    (starts_atF duration_minF statusF notesF : Option String) (now : String) :
    CreateApptResult :=
  match durationField duration_minF with
  | none => .valueError
  | some duration_min =>
    let status := orDefault statusF "Agendado"
    let notes := formOrNone notesF
    match client_idF, starts_atF with
    | some cid, some s =>
      if s = "" then .validationError
      else
        .created
          { db with
              appointments := db.appointments ++
                [⟨db.nextApptId, cid, s, duration_min, status, notes, now⟩],
              nextApptId := db.nextApptId + 1 }
          db.nextApptId
    | _, _ => .validationError

/-- Outcome of POST `/agenda/<appt_id>/editar` (`edit_appointment`). -/
inductive EditApptResult where
  /-- flash "Consulta não encontrada.", redirect to the listing. -/
  | notFound : EditApptResult
  /-- uncaught `ValueError` from `int(...)`: the request aborts, no update. -/
  | valueError : EditApptResult
  /-- uncaught `sqlite3.IntegrityError`: NULL bound to a NOT NULL column
  (`starts_at` or `status` field absent from the form), no update. -/
  | integrityError : EditApptResult
  /-- flash "Consulta atualizada!", redirect; carries the new db. -/
  | updated : DB → EditApptResult
  deriving DecidableEq, Repr

/-- POST `/agenda/<appt_id>/editar` (`edit_appointment` in app.py). The joined
fetch runs first (missing id → not-found path); then the form is read and
`UPDATE appointments SET starts_at=?, duration_min=?, status=?, notes=?
WHERE id=?` overwrites exactly those four columns of the matching row(s). -/
def edit_appointment_post (db : DB) (appt_id : Nat)
    (starts_atF duration_minF statusF notesF : Option String) : EditApptResult :=
  match joinedFetch db appt_id with
  | none => .notFound
  | some _ =>
    match durationField duration_minF with
    | none => .valueError
    | some d =>
      match starts_atF, statusF with
      | some s, some st =>
        .updated
          { db with
              appointments := db.appointments.map fun a =>
                if a.id = appt_id then
                  { a with starts_at := s, duration_min := d, status := st,
                           notes := formOrNone notesF }
                else a }
      | _, _ => .integrityError

/-- GET `/agenda` (`appointments` in app.py): the date-range listing. `deF`
and `ateF` are the `de`/`ate` query parameters (`none` = absent; the code
also treats `""` as absent via falsiness). Bounds are string comparisons
against `<date>T00:00` and `<date>T23:59`; rows are the client join, ordered
by `a.starts_at ASC`. -/
def appointments_list (db : DB) (deF ateF : Option String) :
    List (Appointment × Client) :=
  let fromOk : Appointment → Bool := fun a =>
    match deF with
    | none => true
    | some d => if d = "" then true else strLe (d ++ "T00:00") a.starts_at
  let toOk : Appointment → Bool := fun a =>
    match ateF with
    | none => true
    | some d => if d = "" then true else strLe a.starts_at (d ++ "T23:59")
  List.insertionSort apptAscStarts
    ((sqlJoin db).filter (fun p => fromOk p.1 && toOk p.1))

/-! ## Well-formedness and referential integrity -/

/-- Structural facts guaranteed by SQLite AUTOINCREMENT primary keys: ids are
distinct and below the next counter. -/
def WF (db : DB) : Prop :=
  (∀ c ∈ db.clients, c.id < db.nextClientId) ∧
  (db.clients.map Client.id).Nodup ∧
  (∀ n ∈ db.notes, n.id < db.nextNoteId) ∧
  (∀ a ∈ db.appointments, a.id < db.nextApptId) ∧
  (db.appointments.map Appointment.id).Nodup

/-- Referential integrity: every note and appointment references an existing
client. The schema DECLARES this via foreign keys, but see `C1` below. -/
def RefInt (db : DB) : Prop :=
  (∀ n ∈ db.notes, ∃ c ∈ db.clients, c.id = n.client_id) ∧
  (∀ a ∈ db.appointments, ∃ c ∈ db.clients, c.id = a.client_id)

instance (db : DB) : Decidable (WF db) := by unfold WF; infer_instance

instance (db : DB) : Decidable (RefInt db) := by unfold RefInt; infer_instance

/-! ## Helper lemmas -/

theorem mem_sqlJoin {db : DB} {a : Appointment} {c : Client} :
    (a, c) ∈ sqlJoin db ↔ a ∈ db.appointments ∧ c ∈ db.clients ∧ c.id = a.client_id := by
  simp only [sqlJoin, List.mem_flatMap, List.mem_map, List.mem_filter, beq_iff_eq,
    Prod.mk.injEq]
  constructor
  · rintro ⟨x, hx, c2, ⟨hc2, hid⟩, rfl, rfl⟩
    exact ⟨hx, hc2, hid⟩
  · rintro ⟨ha, hc, hid⟩
    exact ⟨a, ha, c, ⟨hc, hid⟩, rfl, rfl⟩

theorem joinedFetch_eq_none {db : DB} {aid : Nat}
    (h : ∀ a ∈ db.appointments, a.id ≠ aid) : joinedFetch db aid = none := by
  unfold joinedFetch
  have hnil : (sqlJoin db).filter (fun p => p.1.id == aid) = [] := by
    rw [List.filter_eq_nil_iff]
    rintro ⟨a, c⟩ hp
    have hm := mem_sqlJoin.mp hp
    simpa [beq_iff_eq] using h a hm.1
  rw [hnil]
  rfl

theorem joinedFetch_isSome {db : DB} {aid : Nat} {a : Appointment}
    (ha : a ∈ db.appointments) (hid : a.id = aid) {c : Client}
    (hc : c ∈ db.clients) (hcid : c.id = a.client_id) :
    ∃ p, joinedFetch db aid = some p := by
  unfold joinedFetch
  have hmem : (a, c) ∈ (sqlJoin db).filter (fun p => p.1.id == aid) := by
    rw [List.mem_filter]
    exact ⟨mem_sqlJoin.mpr ⟨ha, hc, hcid⟩, by simp [hid]⟩
  obtain ⟨p, t, hpt⟩ := List.exists_cons_of_ne_nil (List.ne_nil_of_mem hmem)
  exact ⟨p, by rw [hpt]; rfl⟩

theorem pairwise_pair_sublist {α : Type} {r : α → α → Prop} {a b : α}
    (hne : a ≠ b) (hnr : ¬ r a b) {l : List α} (hp : l.Pairwise r)
    (ha : a ∈ l) (hb : b ∈ l) : [b, a].Sublist l := by
  induction l with
  | nil => cases ha
  | cons x xs ih =>
    rcases List.pairwise_cons.mp hp with ⟨hx, hxs⟩
    rcases List.mem_cons.mp ha with rfl | ha2
    · rcases List.mem_cons.mp hb with hbx | hb2
      · exact absurd hbx.symm hne
      · exact absurd (hx b hb2) hnr
    · rcases List.mem_cons.mp hb with rfl | hb2
      · exact (List.singleton_sublist.mpr ha2).cons₂ _
      · exact (ih hxs ha2 hb2).cons _

/-! ## Claims -/

/-- C1: REFUTED ON THE CODE (code bug). The claim: in every state reachable
through the public operations, every stored note and appointment references an
existing client. The schema declares cascade foreign keys, but `get_db` never
issues `PRAGMA foreign_keys=ON` (SQLite defaults to OFF) and the note-adding
branch of `client_detail` inserts without checking that the client exists, so
a single public operation on the fresh database produces a note whose client
id matches no stored client. -/
theorem C1_note_without_client :
    ∃ n ∈ ((client_detail_post emptyDB 7 (some "note text") "2025-01-10T10:00").1).notes,
      fetchClient ((client_detail_post emptyDB 7 (some "note text") "2025-01-10T10:00").1)
        n.client_id = none := by
  decide

/-- C2: REFUTED ON THE CODE (code bug). The claim: creating an appointment for
a non-existent client id fails with NotFoundError and no row is inserted. The
handler `new_appointment` only checks that the fields are present, never that
the client exists; with foreign keys unenforced the insert succeeds and
flashes "Consulta criada!": on the empty database, client id 999 matches no
client and yet a full appointment row for client 999 is stored. -/
theorem C2_orphan_appointment_created :
    fetchClient emptyDB 999 = none ∧
    new_appointment_post emptyDB (some 999) (some "2025-01-10T10:00") none none none
        "2025-01-01T09:00" =
      .created { emptyDB with
          appointments := [⟨1, 999, "2025-01-10T10:00", 60, "Agendado", none,
            "2025-01-01T09:00"⟩],
          nextApptId := 2 } 1 := by
  decide

/-- C7: REFUTED ON THE CODE (code bug). The claim: note creation with empty
content fails with a distinguishable ValidationError, and note creation for a
missing client fails with NotFoundError (or a foreign-key error). In the code,
empty (or whitespace-only) content is silently dropped — the handler redirects
with no flash message at all and inserts nothing — and a note for a missing
client id is inserted successfully with the success flash, because the handler
never looks the client up and foreign keys are unenforced. -/
theorem C7_note_errors_bug :
    client_detail_post emptyDB 1 (some "") "2025-01-01T09:00" = (emptyDB, none) ∧
    client_detail_post emptyDB 1 (some "   ") "2025-01-01T09:00" = (emptyDB, none) ∧
    (client_detail_post emptyDB 999 (some "hello") "2025-01-01T09:00").2 =
      some "Observação adicionada!" ∧
    ∃ n ∈ ((client_detail_post emptyDB 999 (some "hello") "2025-01-01T09:00").1).notes,
      n.client_id = 999 ∧
      fetchClient ((client_detail_post emptyDB 999 (some "hello") "2025-01-01T09:00").1)
        999 = none := by
  decide

/-- C3 counterexample: the claim says a NON-NUMERIC duration field silently
degrades to 60 and the create succeeds. In the code
`int(request.form.get("duration_min") or 60)` raises an uncaught `ValueError`
on a non-empty non-numeric string: with an existing client and a valid start
time but duration "abc", the request aborts instead of inserting duration 60. -/
theorem C3_counterexample :
    fetchClient ((new_client emptyDB (some "Maria") none none "2025-01-01T09:00").1) 1 ≠ none ∧
    new_appointment_post ((new_client emptyDB (some "Maria") none none "2025-01-01T09:00").1)
      (some 1) (some "2025-01-10T10:00") (some "abc") none none "2025-01-01T09:05" =
      .valueError := by
  decide

/-- C3 (amended): an appointment-create request whose duration field is ABSENT
OR EMPTY succeeds and stores duration 60; a request whose duration field is a
non-empty string that Python `int` cannot parse aborts with an uncaught
ValueError, and no row is inserted. -/
theorem C3_duration_default (db : DB) (cid : Nat) (s : String) (hs : s ≠ "")
    (statusF notesF : Option String) (now : String) :
    (∀ dF : Option String, (dF = none ∨ dF = some "") →
        new_appointment_post db (some cid) (some s) dF statusF notesF now =
          .created { db with
              appointments := db.appointments ++
                [⟨db.nextApptId, cid, s, 60, orDefault statusF "Agendado",
                  formOrNone notesF, now⟩],
              nextApptId := db.nextApptId + 1 } db.nextApptId) ∧
    (∀ d : String, d ≠ "" → pyInt d = none →
        new_appointment_post db (some cid) (some s) (some d) statusF notesF now =
          .valueError) := by
  constructor
  · rintro dF (rfl | rfl) <;> simp [new_appointment_post, durationField, hs]
  · intro d hd hparse
    simp [new_appointment_post, durationField, hd, hparse]

/-- C3 witness: instantiation of `C3_duration_default` on the empty database
with concrete inputs. -/
theorem C3_witness :
    new_appointment_post emptyDB (some 1) (some "2025-01-10T10:00") none none none
        "2025-01-01T09:00" =
      .created { emptyDB with
          appointments := emptyDB.appointments ++
            [⟨emptyDB.nextApptId, 1, "2025-01-10T10:00", 60, orDefault none "Agendado",
              formOrNone none, "2025-01-01T09:00"⟩],
          nextApptId := emptyDB.nextApptId + 1 } emptyDB.nextApptId ∧
    new_appointment_post emptyDB (some 1) (some "2025-01-10T10:00") (some "12x") none none
        "2025-01-01T09:00" = .valueError :=
  ⟨(C3_duration_default emptyDB 1 "2025-01-10T10:00" (by decide) none none
      "2025-01-01T09:00").1 none (Or.inl rfl),
   (C3_duration_default emptyDB 1 "2025-01-10T10:00" (by decide) none none
      "2025-01-01T09:00").2 "12x" (by decide) (by decide)⟩

/-- C5: client create rejects a name whose stripped form is empty (empty or
whitespace-only), leaving the database unchanged and flashing the
ValidationError message (`none` here); for any other name it appends exactly
one client row whose creation timestamp is the current local minute-precision
time `now` and returns the new identity `db.nextClientId`. -/
theorem C5_new_client (db : DB) (nameF phoneF emailF : Option String) (now : String) :
    (pyStrip (formGetD nameF) = "" →
        new_client db nameF phoneF emailF now = (db, none)) ∧
    (pyStrip (formGetD nameF) ≠ "" →
        new_client db nameF phoneF emailF now =
          ({ db with
              clients := db.clients ++
                [⟨db.nextClientId, pyStrip (formGetD nameF),
                  orNone (pyStrip (formGetD phoneF)),
                  orNone (pyStrip (formGetD emailF)), now⟩],
              nextClientId := db.nextClientId + 1 },
           some db.nextClientId)) := by
  constructor
  · intro h; simp [new_client, h]
  · intro h; simp [new_client, h]

/-- C5 witness: instantiation of `C5_new_client` with a whitespace-only name
(rejected, database unchanged) and with the name "Maria" (inserted with the
given minute-precision timestamp, new identity returned). -/
theorem C5_witness :
    new_client emptyDB (some "   ") (some "999") none "2025-01-01T09:00" = (emptyDB, none) ∧
    new_client emptyDB (some "Maria") none none "2025-01-01T09:00" =
      ({ emptyDB with
          clients := emptyDB.clients ++
            [⟨emptyDB.nextClientId, pyStrip (formGetD (some "Maria")),
              orNone (pyStrip (formGetD none)), orNone (pyStrip (formGetD none)),
              "2025-01-01T09:00"⟩],
          nextClientId := emptyDB.nextClientId + 1 },
       some emptyDB.nextClientId) :=
  ⟨(C5_new_client emptyDB (some "   ") (some "999") none "2025-01-01T09:00").1 (by decide),
   (C5_new_client emptyDB (some "Maria") none none "2025-01-01T09:00").2 (by decide)⟩


/-- Helper: fetching by the id of a freshly appended appointment returns that
appointment joined with the first client whose id matches it. -/
theorem joinedFetch_snoc (db db2 : DB) (a0 : Appointment)
    (hcl : db2.clients = db.clients)
    (hap : db2.appointments = db.appointments ++ [a0])
    (hfresh : ∀ a ∈ db.appointments, a.id ≠ a0.id)
    {c0 : Client} {t : List Client}
    (hf : db.clients.filter (fun c => c.id == a0.client_id) = c0 :: t) :
    joinedFetch db2 a0.id = some (a0, c0) := by
  unfold joinedFetch sqlJoin
  rw [hcl, hap, List.flatMap_append, List.flatMap_cons, List.flatMap_nil, List.append_nil,
    List.filter_append, hf]
  have hnil : ((db.appointments.flatMap fun a =>
      (db.clients.filter fun c => c.id == a.client_id).map fun c => (a, c)).filter
        fun p => p.1.id == a0.id) = [] := by
    rw [List.filter_eq_nil_iff]
    rintro ⟨x, c⟩ hq
    have hm := mem_sqlJoin.mp (show (x, c) ∈ sqlJoin db from hq)
    simpa [beq_iff_eq] using hfresh x hm.1
  rw [hnil, List.nil_append, List.map_cons, List.filter_cons]
  simp

/-- C4: with a valid client id, creating an appointment that starts at
"2025-01-10T10:00" with the duration and status fields omitted succeeds, and
the subsequent joined fetch of the new appointment id returns it with duration
60 and the default status, the literal the code spells "Agendado" (= the first
member of the enumerated status set, which the specification names
"Scheduled"). -/
theorem C4_created_defaults (db : DB) (hWF : WF db) (cid : Nat)
    (hc : ∃ c ∈ db.clients, c.id = cid) (now : String) :
    ∃ db2 a c,
      new_appointment_post db (some cid) (some "2025-01-10T10:00") none none none now =
        .created db2 db.nextApptId ∧
      joinedFetch db2 db.nextApptId = some (a, c) ∧
      a.duration_min = 60 ∧ a.status = "Agendado" ∧
      a.starts_at = "2025-01-10T10:00" ∧ a.client_id = cid := by
  obtain ⟨cw, hcw, hcwid⟩ := hc
  have hcwf : cw ∈ db.clients.filter (fun c => c.id == cid) :=
    List.mem_filter.mpr ⟨hcw, by simp [hcwid]⟩
  obtain ⟨c0, t, hft⟩ := List.exists_cons_of_ne_nil (List.ne_nil_of_mem hcwf)
  refine ⟨{ db with
      appointments := db.appointments ++
        [⟨db.nextApptId, cid, "2025-01-10T10:00", 60, "Agendado", none, now⟩],
      nextApptId := db.nextApptId + 1 },
    ⟨db.nextApptId, cid, "2025-01-10T10:00", 60, "Agendado", none, now⟩, c0,
    ?_, ?_, rfl, rfl, rfl, rfl⟩
  · simp [new_appointment_post, durationField, orDefault, formOrNone]
  · exact joinedFetch_snoc db
      { db with
          appointments := db.appointments ++
            [⟨db.nextApptId, cid, "2025-01-10T10:00", 60, "Agendado", none, now⟩],
          nextApptId := db.nextApptId + 1 }
      ⟨db.nextApptId, cid, "2025-01-10T10:00", 60, "Agendado", none, now⟩ rfl rfl
      (fun a ha => Nat.ne_of_lt (hWF.2.2.2.1 a ha)) hft

/-- C4 witness: instantiation of `C4_created_defaults` on the database that
holds the single client "Maria" with id 1. -/
theorem C4_witness :
    ∃ db2 a c,
      new_appointment_post ((new_client emptyDB (some "Maria") none none "2025-01-01T09:00").1)
          (some 1) (some "2025-01-10T10:00") none none none "2025-01-01T09:05" =
        .created db2 ((new_client emptyDB (some "Maria") none none "2025-01-01T09:00").1).nextApptId ∧
      joinedFetch db2 ((new_client emptyDB (some "Maria") none none "2025-01-01T09:00").1).nextApptId =
        some (a, c) ∧
      a.duration_min = 60 ∧ a.status = "Agendado" ∧
      a.starts_at = "2025-01-10T10:00" ∧ a.client_id = 1 :=
  C4_created_defaults ((new_client emptyDB (some "Maria") none none "2025-01-01T09:00").1)
    (by decide) 1 (by decide) "2025-01-01T09:05"

/-- C10: for any client-create request with a non-empty name, exactly one row
is inserted and fetching it by the new id returns that row; each optional
field is handled INDEPENDENTLY: whenever the phone field is absent, empty or
whitespace-only the stored row has `phone = none` (NULL, never an empty or
whitespace string) regardless of the email field, and symmetrically for
email. -/
theorem C10_optional_fields (db : DB) (hWF : WF db) (nameF phoneF emailF : Option String)
    (hname : pyStrip (formGetD nameF) ≠ "") (now : String) :
    ∃ row : Client,
      new_client db nameF phoneF emailF now =
        ({ db with
            clients := db.clients ++ [row],
            nextClientId := db.nextClientId + 1 },
         some db.nextClientId) ∧
      fetchClient
        { db with
            clients := db.clients ++ [row],
            nextClientId := db.nextClientId + 1 } db.nextClientId = some row ∧
      (pyStrip (formGetD phoneF) = "" → row.phone = none) ∧
      (pyStrip (formGetD emailF) = "" → row.email = none) ∧
      (pyStrip (formGetD phoneF) ≠ "" → row.phone = some (pyStrip (formGetD phoneF))) ∧
      (pyStrip (formGetD emailF) ≠ "" → row.email = some (pyStrip (formGetD emailF))) := by
  refine ⟨⟨db.nextClientId, pyStrip (formGetD nameF),
      orNone (pyStrip (formGetD phoneF)), orNone (pyStrip (formGetD emailF)), now⟩,
    ?_, ?_, ?_, ?_, ?_, ?_⟩
  · simp [new_client, hname]
  · unfold fetchClient
    have h1 : db.clients.filter (fun c => c.id == db.nextClientId) = [] := by
      rw [List.filter_eq_nil_iff]
      intro c hc
      have := hWF.1 c hc
      simp only [beq_iff_eq]
      omega
    simp [List.filter_append, h1, List.filter_cons]
  · intro h; simp [orNone, h]
  · intro h; simp [orNone, h]
  · intro h; simp [orNone, h]
  · intro h; simp [orNone, h]

/-- C10 witness: instantiations of `C10_optional_fields` on the empty database
for the mixed cases: a whitespace-only phone together with a real email stores
phone NULL, and a real phone together with an absent email stores email
NULL. -/
theorem C10_witness :
    (∃ row : Client,
        new_client emptyDB (some "Maria") (some "   ") (some "m@x.com")
            "2025-01-01T09:00" =
          ({ emptyDB with
              clients := emptyDB.clients ++ [row],
              nextClientId := emptyDB.nextClientId + 1 },
           some emptyDB.nextClientId) ∧
        fetchClient
          { emptyDB with
              clients := emptyDB.clients ++ [row],
              nextClientId := emptyDB.nextClientId + 1 } emptyDB.nextClientId = some row ∧
        row.phone = none ∧ row.email = some "m@x.com") ∧
    (∃ row : Client,
        new_client emptyDB (some "Maria") (some "11999990001") none
            "2025-01-01T09:00" =
          ({ emptyDB with
              clients := emptyDB.clients ++ [row],
              nextClientId := emptyDB.nextClientId + 1 },
           some emptyDB.nextClientId) ∧
        fetchClient
          { emptyDB with
              clients := emptyDB.clients ++ [row],
              nextClientId := emptyDB.nextClientId + 1 } emptyDB.nextClientId = some row ∧
        row.phone = some "11999990001" ∧ row.email = none) := by
  constructor
  · obtain ⟨row, h1, h2, hp, he, hp2, he2⟩ := C10_optional_fields emptyDB (by decide)
      (some "Maria") (some "   ") (some "m@x.com") (by decide) "2025-01-01T09:00"
    exact ⟨row, h1, h2, hp (by decide), he2 (by decide)⟩
  · obtain ⟨row, h1, h2, hp, he, hp2, he2⟩ := C10_optional_fields emptyDB (by decide)
      (some "Maria") (some "11999990001") none (by decide) "2025-01-01T09:00"
    exact ⟨row, h1, h2, hp2 (by decide), he (by decide)⟩

/-- C6: under referential integrity, for EVERY date-range listing — each of
the two bounds independently absent or given — an appointment appears (joined
with some client row) exactly when it is stored and satisfies every given
bound: at or after `<from>T00:00` when `from` is given and at or before
`<to>T23:59` when `to` is given (both inclusive, SQLite TEXT comparison; an
absent or empty parameter imposes no constraint); every returned row pairs the
appointment with a stored client whose id is the owning client id; and the
rows are ordered by start time ascending. -/
theorem C6_range_listing (db : DB) (hRI : RefInt db) (deF ateF : Option String) :
    (∀ a : Appointment,
        (∃ c, (a, c) ∈ appointments_list db deF ateF) ↔
          a ∈ db.appointments ∧
          (∀ d, deF = some d → d ≠ "" → strLe (d ++ "T00:00") a.starts_at = true) ∧
          (∀ d, ateF = some d → d ≠ "" → strLe a.starts_at (d ++ "T23:59") = true)) ∧
    (∀ p ∈ appointments_list db deF ateF,
        p.2 ∈ db.clients ∧ p.2.id = p.1.client_id) ∧
    (appointments_list db deF ateF).Sorted apptAscStarts := by
  have hmem : ∀ p : Appointment × Client,
      p ∈ appointments_list db deF ateF ↔
        p ∈ sqlJoin db ∧
        (∀ d, deF = some d → d ≠ "" → strLe (d ++ "T00:00") p.1.starts_at = true) ∧
        (∀ d, ateF = some d → d ≠ "" → strLe p.1.starts_at (d ++ "T23:59") = true) := by
    intro p
    simp only [appointments_list]
    rw [(List.perm_insertionSort _ _).mem_iff, List.mem_filter, Bool.and_eq_true]
    refine and_congr_right fun _ => and_congr ?_ ?_
    · cases deF with
      | none => simp
      | some d =>
        by_cases hd : d = ""
        · subst hd; simp
        · simp [hd]
    · cases ateF with
      | none => simp
      | some d =>
        by_cases hd : d = ""
        · subst hd; simp
        · simp [hd]
  refine ⟨?_, ?_, ?_⟩
  · intro a
    constructor
    · rintro ⟨c, hc⟩
      have h := (hmem (a, c)).mp hc
      exact ⟨(mem_sqlJoin.mp h.1).1, h.2⟩
    · rintro ⟨ha, hfrom, hto⟩
      obtain ⟨c, hcmem, hcid⟩ := hRI.2 a ha
      exact ⟨c, (hmem (a, c)).mpr ⟨mem_sqlJoin.mpr ⟨ha, hcmem, hcid⟩, hfrom, hto⟩⟩
  · rintro ⟨a, c⟩ hp
    have h := mem_sqlJoin.mp ((hmem (a, c)).mp hp).1
    exact ⟨h.2.1, h.2.2⟩
  · exact List.sorted_insertionSort _ _

/-- Concrete database for the C6 witness: one client, one appointment at
"2025-01-10T23:30" and one at "2025-01-11T00:01". -/
def c6db : DB :=
  ⟨[⟨1, "Maria", none, none, "2025-01-01T09:00"⟩], [],
   [⟨1, 1, "2025-01-10T23:30", 60, "Agendado", none, "2025-01-01T09:00"⟩,
    ⟨2, 1, "2025-01-11T00:01", 60, "Agendado", none, "2025-01-01T09:00"⟩], 2, 1, 3⟩

/-- C6 witness: instantiations of `C6_range_listing` on `c6db`. With both
bounds given (from="2025-01-09", to="2025-01-10") the appointment at
"2025-01-10T23:30" is listed and the one at "2025-01-11T00:01" is not; with
only `from`="2025-01-11" given the second is listed and the first is not. -/
theorem C6_witness :
    (∃ c, ((⟨1, 1, "2025-01-10T23:30", 60, "Agendado", none, "2025-01-01T09:00"⟩ :
        Appointment), c) ∈ appointments_list c6db (some "2025-01-09") (some "2025-01-10")) ∧
    ¬ (∃ c, ((⟨2, 1, "2025-01-11T00:01", 60, "Agendado", none, "2025-01-01T09:00"⟩ :
        Appointment), c) ∈ appointments_list c6db (some "2025-01-09") (some "2025-01-10")) ∧
    (∃ c, ((⟨2, 1, "2025-01-11T00:01", 60, "Agendado", none, "2025-01-01T09:00"⟩ :
        Appointment), c) ∈ appointments_list c6db (some "2025-01-11") none) ∧
    ¬ (∃ c, ((⟨1, 1, "2025-01-10T23:30", 60, "Agendado", none, "2025-01-01T09:00"⟩ :
        Appointment), c) ∈ appointments_list c6db (some "2025-01-11") none) := by
  refine ⟨?_, ?_, ?_, ?_⟩
  · exact ((C6_range_listing c6db (by decide) (some "2025-01-09") (some "2025-01-10")).1 _).mpr
      ⟨by decide,
       fun d hd hne => by injection hd with h; subst h; decide,
       fun d hd hne => by injection hd with h; subst h; decide⟩
  · intro h
    have hr := ((C6_range_listing c6db (by decide) (some "2025-01-09") (some "2025-01-10")).1 _).mp h
    exact absurd (hr.2.2 "2025-01-10" rfl (by decide)) (by decide)
  · exact ((C6_range_listing c6db (by decide) (some "2025-01-11") none).1 _).mpr
      ⟨by decide,
       fun d hd hne => by injection hd with h; subst h; decide,
       fun d hd => nomatch hd⟩
  · intro h
    have hr := ((C6_range_listing c6db (by decide) (some "2025-01-11") none).1 _).mp h
    exact absurd (hr.2.1 "2025-01-11" rfl (by decide)) (by decide)

/-- C8: under referential integrity, appointment update takes the not-found
path (flash "Consulta não encontrada.") whenever no stored appointment has the
given id; for a stored id (with a parseable duration) it unconditionally
overwrites start time, duration, status and notes of exactly the matching row,
while that row keeps its owning client id and creation timestamp (the
`{x with ...}` update touches no other field) and the clients and notes tables
and all other appointment rows are untouched (rows with a different id map to
themselves). -/
theorem C8_edit_appointment (db : DB) (hRI : RefInt db) (aid : Nat)
    (s st : String) (dF notesF : Option String) :
    ((∀ a ∈ db.appointments, a.id ≠ aid) →
        edit_appointment_post db aid (some s) dF (some st) notesF = .notFound) ∧
    (∀ a ∈ db.appointments, a.id = aid → ∀ d : Int, durationField dF = some d →
        edit_appointment_post db aid (some s) dF (some st) notesF =
          .updated { db with
              appointments := db.appointments.map fun x =>
                if x.id = aid then
                  { x with starts_at := s, duration_min := d, status := st,
                           notes := formOrNone notesF }
                else x }) := by
  constructor
  · intro h
    unfold edit_appointment_post
    rw [joinedFetch_eq_none h]
  · intro a ha hid d hd
    obtain ⟨c, hc, hcid⟩ := hRI.2 a ha
    obtain ⟨q, hq⟩ := joinedFetch_isSome ha hid hc hcid
    unfold edit_appointment_post
    rw [hq, hd]

/-- Concrete database for the C8 witness: one client, one appointment. -/
def c8db : DB :=
  ⟨[⟨1, "Maria", none, none, "2025-01-01T09:00"⟩], [],
   [⟨1, 1, "2025-01-10T10:00", 60, "Agendado", none, "2025-01-01T09:00"⟩], 2, 1, 2⟩

/-- C8 witness: instantiation of `C8_edit_appointment` on `c8db`: updating the
missing id 5 is not-found; updating id 1 overwrites the four mutable fields of
that row only. -/
theorem C8_witness :
    edit_appointment_post c8db 5 (some "2025-02-01T09:00") (some "45") (some "Confirmado")
        none = .notFound ∧
    edit_appointment_post c8db 1 (some "2025-02-01T09:00") (some "45") (some "Confirmado")
        none =
      .updated { c8db with
          appointments := c8db.appointments.map fun x =>
            if x.id = 1 then
              { x with starts_at := "2025-02-01T09:00", duration_min := 45,
                       status := "Confirmado", notes := formOrNone none }
            else x } :=
  ⟨(C8_edit_appointment c8db (by decide) 5 "2025-02-01T09:00" "Confirmado" (some "45")
      none).1 (by decide),
   (C8_edit_appointment c8db (by decide) 1 "2025-02-01T09:00" "Confirmado" (some "45")
      none).2 ⟨1, 1, "2025-01-10T10:00", 60, "Agendado", none, "2025-01-01T09:00"⟩
      (by decide) (by decide) 45 (by decide)⟩

/-- C9 counterexample: the claim asserts that after adding two notes to the
same client in sequence the listing returns the second-added note first. Both
inserts stamp `created_at` with the same minute-precision clock value, so the
keys tie; `ORDER BY created_at DESC` then keeps table order (stable sort
model; SQLite guarantees nothing for ties), and the listing returns the
FIRST-added note first, refuting the claim on this reachable state. -/
theorem C9_counterexample :
    client_notes ((client_detail_post ((client_detail_post
        ((new_client emptyDB (some "Maria") none none "2025-01-10T10:00").1)
        1 (some "first note") "2025-01-10T10:05").1)
        1 (some "second note") "2025-01-10T10:05").1) 1 =
      [⟨1, 1, "first note", "2025-01-10T10:05"⟩,
       ⟨2, 1, "second note", "2025-01-10T10:05"⟩] := by
  decide

/-- C9 (amended): the notes listing of a client returns exactly that client's
notes, sorted newest-first by creation timestamp; and whenever one stored note
of the client has a STRICTLY later creation timestamp than another, it appears
before it in the listing (notes that tie at minute precision carry no
guaranteed relative order). -/
theorem C9_notes_order (db : DB) (cid : Nat) (n1 n2 : Note)
    (h1 : n1 ∈ db.notes) (hcid1 : n1.client_id = cid)
    (h2 : n2 ∈ db.notes) (hcid2 : n2.client_id = cid)
    (hne : n1 ≠ n2) (hnew : strLe n2.created_at n1.created_at = false) :
    (client_notes db cid).Sorted noteDesc ∧
    (∀ n : Note, n ∈ client_notes db cid ↔ n ∈ db.notes ∧ n.client_id = cid) ∧
    [n2, n1].Sublist (client_notes db cid) := by
  have hsorted : (client_notes db cid).Sorted noteDesc :=
    List.sorted_insertionSort _ _
  have hmem : ∀ n : Note, n ∈ client_notes db cid ↔ n ∈ db.notes ∧ n.client_id = cid := by
    intro n
    simp only [client_notes]
    rw [(List.perm_insertionSort _ _).mem_iff, List.mem_filter]
    simp [beq_iff_eq]
  refine ⟨hsorted, hmem, ?_⟩
  exact pairwise_pair_sublist hne (by simp [noteDesc, hnew]) hsorted
    ((hmem n1).mpr ⟨h1, hcid1⟩) ((hmem n2).mpr ⟨h2, hcid2⟩)

/-- Concrete database for the C9 witness: one client and two of its notes with
strictly increasing creation timestamps. -/
def c9db : DB :=
  ⟨[⟨1, "Maria", none, none, "2025-01-01T09:00"⟩],
   [⟨1, 1, "first note", "2025-01-10T10:05"⟩,
    ⟨2, 1, "second note", "2025-01-10T10:07"⟩], [], 2, 3, 1⟩

/-- C9 witness: instantiation of `C9_notes_order` on `c9db`: the strictly
newer second note is listed before the first. -/
theorem C9_witness :
    (client_notes c9db 1).Sorted noteDesc ∧
    (∀ n : Note, n ∈ client_notes c9db 1 ↔ n ∈ c9db.notes ∧ n.client_id = 1) ∧
    [(⟨2, 1, "second note", "2025-01-10T10:07"⟩ : Note),
     ⟨1, 1, "first note", "2025-01-10T10:05"⟩].Sublist (client_notes c9db 1) :=
  C9_notes_order c9db 1 ⟨1, 1, "first note", "2025-01-10T10:05"⟩
    ⟨2, 1, "second note", "2025-01-10T10:07"⟩
    (by decide) (by decide) (by decide) (by decide) (by decide) (by decide)

end App
